import Mathlib

/-!
Shallow embedding of the PaloVerde order backend.

The source is the NestJS `OrdersService` (orders service file): order
creation builds Stripe line items from the user's populated wish list,
opens a checkout session, persists an order record, and translates raw
persistence/gateway errors through `handelDBException`.  CRUD operations
`update` and `remove` act on the order store.

External effects (the Stripe gateway call and the MongoDB write) are
modelled by an `Env` value giving the outcome of each external call of a
single `create` invocation, and a `Trace` records the side effects the
call performed (gateway requests submitted, sessions created, order
writes, raw errors logged).
-/

/-- A wish document as populated from the Wish store: identity plus the
fields read by order creation (`material`, `sizePrice`, `photoPrice`,
`amount`). -/
structure Wish where
  id : Nat
  material : String
  sizePrice : Nat
  photoPrice : Nat
  amount : Nat
deriving Repr, DecidableEq

/-- `product_data` of a Stripe line item. -/
structure ProductData where
  name : String
  description : String
deriving Repr, DecidableEq

/-- `price_data` of a Stripe line item. -/
structure PriceData where
  product_data : ProductData
  currency : String
  unit_amount : Nat
deriving Repr, DecidableEq

/-- A Stripe checkout line item (`Item` interface in the source). -/
structure Item where
  price_data : PriceData
  quantity : Nat
deriving Repr, DecidableEq

/-- The per-wish line-item construction inside `create`:
name = material, description = "Print on " ++ material, currency "usd",
unit_amount = sizePrice + photoPrice, quantity = amount. -/
def mkItem (wish : Wish) : Item :=
  { price_data :=
      { product_data :=
          { name := wish.material
            description := "Print on " ++ wish.material }
        currency := "usd"
        unit_amount := wish.sizePrice + wish.photoPrice }
    quantity := wish.amount }

/-- `wishes.map(wish => ({...}))` : the full line-item list. -/
def buildItems (wishes : List Wish) : List Item :=
  wishes.map mkItem

/-- A raw error thrown by the gateway or the persistence layer:
an optional numeric `code` (MongoDB duplicate-key errors carry 11000)
and the stringified conflicting key/value payload. -/
structure RawError where
  code : Option Nat
  keyValue : String
deriving Repr, DecidableEq

/-- The errors the service surfaces.  `typeError` stands for an unhandled
JavaScript runtime error (destructuring a null document), which is not one
of the Nest HTTP exceptions. -/
inductive ServiceError where
  | notFoundException (msg : String)
  | badRequestException (msg : String)
  | internalServerErrorException (msg : String)
  | typeError (msg : String)
deriving Repr, DecidableEq

/-- `handelDBException`: code 11000 becomes a BadRequest carrying the
conflicting key/value; every other raw error becomes the generic
InternalServerError with a constant message. -/
def handelDBException (e : RawError) : ServiceError :=
  if e.code = some 11000 then
    .badRequestException ("Order already exists, " ++ e.keyValue)
  else
    .internalServerErrorException "Unexpected error, check server logs"

/-- The raw errors `handelDBException` logs at error severity: only the
non-duplicate-key branch calls `this.logger.error(error)`. -/
def handelDBExceptionLog (e : RawError) : List RawError :=
  if e.code = some 11000 then [] else [e]

/-- A Stripe checkout session: gateway-assigned identity, `amount_total`
and redirect `url`. -/
structure Session where
  sid : Nat
  amount_total : Nat
  url : String
deriving Repr, DecidableEq

/-- The request shape submitted to `stripe.checkout.sessions.create`. -/
structure GatewayRequest where
  line_items : List Item
  mode : String
  success_url : String
  cancel_url : String
deriving Repr, DecidableEq

/-- A persisted order record (MongoDB assigns the identity `oid`). -/
structure OrderRecord where
  oid : Nat
  createdAt : Nat
  paid : Nat
  status : String
  paymentLink : String
  user : Nat
  wishes : List Nat
deriving Repr, DecidableEq

/-- Outcome of the single gateway call of one `create` invocation. -/
inductive GatewayOutcome where
  | succeed (amount_total : Nat) (url : String)
  | fail (e : RawError)
deriving Repr, DecidableEq

/-- Behaviour of the external world during one `create` call: the gateway
outcome and, when the gateway succeeded, whether the persistence write
raises a raw error (`some e`) or succeeds (`none`). -/
structure Env where
  gatewayOutcome : GatewayOutcome
  persistOutcome : Option RawError
deriving Repr, DecidableEq

/-- Service state: the user store (user id paired with the populated wish
list of that user document), the order store, fresh-id counters for the
order store and the gateway, and the current clock for `createdAt`. -/
structure ServiceState where
  users : List (Nat × List Wish)
  orders : List OrderRecord
  nextOrderId : Nat
  nextSessionId : Nat
  now : Nat
deriving Repr, DecidableEq

/-- Side effects performed by one `create` call. -/
structure Trace where
  gatewayRequests : List GatewayRequest
  sessionsCreated : List Session
  persistWrites : List OrderRecord
  logged : List RawError
deriving Repr, DecidableEq

/-- The empty trace: no external call was made. -/
def Trace.empty : Trace :=
  { gatewayRequests := [], sessionsCreated := [], persistWrites := [], logged := [] }

/-- `userModel.findById(user._id, 'wishes').populate('wishes')`: the
populated wish list of the user document, or `none` when no document with
that id exists (the query resolves to null). -/
def findById (users : List (Nat × List Wish)) (uid : Nat) : Option (List Wish) :=
  (users.find? (fun p => p.1 == uid)).map (fun p => p.2)

/-- Fixed success/cancel redirect target passed to the gateway. -/
def redirectUrl : String := "https://paloverdeprint.netlify.app"

/-- `OrdersService.create(user)`.  Returns the result (order or error),
the new service state, and the trace of side effects.  A missing user
document makes the destructuring `const { wishes } = null` throw an
unhandled runtime TypeError; an empty wish list throws NotFound before any
external call; otherwise the line items are built, the gateway is called,
and on gateway success the order is persisted, with raw errors from either
external call translated by `handelDBException`. -/
def create (st : ServiceState) (env : Env) (uid : Nat) :
    Except ServiceError OrderRecord × ServiceState × Trace :=
  match findById st.users uid with
  | none =>
      (.error (.typeError "Cannot destructure property wishes of null"), st, Trace.empty)
  | some wishes =>
      if wishes.length = 0 then
        (.error (.notFoundException "No wishes found"), st, Trace.empty)
      else
        let items := buildItems wishes
        let req : GatewayRequest :=
          { line_items := items
            mode := "payment"
            success_url := redirectUrl
            cancel_url := redirectUrl }
        match env.gatewayOutcome with
        | .fail e =>
            (.error (handelDBException e), st,
              { gatewayRequests := [req], sessionsCreated := []
                persistWrites := [], logged := handelDBExceptionLog e })
        | .succeed amt url =>
            let session : Session :=
              { sid := st.nextSessionId, amount_total := amt, url := url }
            let st1 := { st with nextSessionId := st.nextSessionId + 1 }
            match env.persistOutcome with
            | some e =>
                (.error (handelDBException e), st1,
                  { gatewayRequests := [req], sessionsCreated := [session]
                    persistWrites := [], logged := handelDBExceptionLog e })
            | none =>
                let order : OrderRecord :=
                  { oid := st1.nextOrderId
                    createdAt := st1.now
                    paid := session.amount_total
                    status := "Pending"
                    paymentLink := session.url
                    user := uid
                    wishes := wishes.map Wish.id }
                (.ok order,
                  { st1 with
                      orders := st1.orders ++ [order]
                      nextOrderId := st1.nextOrderId + 1 },
                  { gatewayRequests := [req], sessionsCreated := [session]
                    persistWrites := [order], logged := [] })

/-- The apostrophe character used in the service's message templates. -/
def apos : String := "\x27"

/-- `Order with id: '${id}' not found` -/
def orderNotFoundMsg (id : Nat) : String :=
  "Order with id: " ++ apos ++ toString id ++ apos ++ " not found"

/-- `Order with the id: '${id}' was removed` -/
def orderRemovedMsg (id : Nat) : String :=
  "Order with the id: " ++ apos ++ toString id ++ apos ++ " was removed"

/-- Modelled from the spec: the update DTO (its source file is not in the
repository snapshot) is a partial patch over order fields — "applies a
partial update (e.g., status transition)"; a field left `none` is not
touched, a field `some v` is set to `v`, with no validation of the value. -/
structure UpdateOrderDto where
  paid : Option Nat := none
  status : Option String := none
  paymentLink : Option String := none
deriving Repr, DecidableEq

/-- Apply a partial patch to an order record, MongoDB `$set` style. -/
def applyPatch (o : OrderRecord) (p : UpdateOrderDto) : OrderRecord :=
  { o with
      paid := p.paid.getD o.paid
      status := p.status.getD o.status
      paymentLink := p.paymentLink.getD o.paymentLink }

/-- `orderModel.find? by id` — the document with the given id, if any. -/
def findOrder (orders : List OrderRecord) (id : Nat) : Option OrderRecord :=
  orders.find? (fun o => o.oid == id)

/-- `OrdersService.update(id, dto)`: `findByIdAndUpdate(id, dto, new:true)`
returns the patched document, or null when absent, in which case the
service throws NotFound. -/
def update (st : ServiceState) (id : Nat) (p : UpdateOrderDto) :
    Except ServiceError OrderRecord × ServiceState :=
  match findOrder st.orders id with
  | none => (.error (.notFoundException (orderNotFoundMsg id)), st)
  | some o =>
      (.ok (applyPatch o p),
        { st with orders := st.orders.map (fun x => if x.oid == id then applyPatch x p else x) })

/-- `OrdersService.remove(id)`: `findByIdAndDelete(id)` returns the deleted
document or null; null makes the service throw NotFound, otherwise the
confirmation string is returned. -/
def remove (st : ServiceState) (id : Nat) :
    Except ServiceError String × ServiceState :=
  match findOrder st.orders id with
  | none => (.error (.notFoundException (orderNotFoundMsg id)), st)
  | some _ =>
      (.ok (orderRemovedMsg id),
        { st with orders := st.orders.filter (fun o => o.oid != id) })

/-! Concrete sample data used by the witnesses. -/

/-- Sample wish from the end-to-end scenario of the spec. -/
def canvasWish : Wish :=
  { id := 7, material := "Canvas", sizePrice := 1000, photoPrice := 500, amount := 2 }

/-- State whose user 1 has an empty wish list and user 2 has one wish. -/
def sampleState : ServiceState :=
  { users := [(1, []), (2, [canvasWish])]
    orders := []
    nextOrderId := 100
    nextSessionId := 200
    now := 0 }

/-- Environment where the gateway succeeds and persistence succeeds. -/
def okEnv : Env :=
  { gatewayOutcome := .succeed 3000 "https://pay/session/abc", persistOutcome := none }

/-- Raw error carrying the MongoDB duplicate-key code. -/
def dupErr : RawError := { code := some 11000, keyValue := "user:2" }

/-- Raw error without the duplicate-key code (e.g. a gateway failure). -/
def netErr : RawError := { code := none, keyValue := "" }

/-- The order `create sampleState okEnv 2` persists. -/
def sampleOrder : OrderRecord :=
  { oid := 100, createdAt := 0, paid := 3000, status := "Pending"
    paymentLink := "https://pay/session/abc", user := 2, wishes := [7] }

/-- C1: for every user whose wish list is empty, `create` fails with
NotFound carrying the message "No wishes found", leaves the service state
unchanged, and performs no payment-gateway call and no order persistence
write. -/
theorem create_empty_wishlist_not_found (st : ServiceState) (env : Env) (uid : Nat)
    (h : findById st.users uid = some []) :
    (create st env uid).1 = .error (.notFoundException "No wishes found") ∧
    (create st env uid).2.1 = st ∧
    (create st env uid).2.2.gatewayRequests = [] ∧
    (create st env uid).2.2.persistWrites = [] := by
  simp [create, h, Trace.empty]

/-- Witness for C1: user 1 of the sample state has an empty wish list. -/
theorem create_empty_wishlist_not_found_witness :
    (create sampleState okEnv 1).1 = .error (.notFoundException "No wishes found") ∧
    (create sampleState okEnv 1).2.2.gatewayRequests = [] :=
  ⟨(create_empty_wishlist_not_found sampleState okEnv 1 rfl).1,
   (create_empty_wishlist_not_found sampleState okEnv 1 rfl).2.2.1⟩

/-- C2: for every non-empty wish list, the line-item list `create` submits
to the gateway is `buildItems ws`: same length as the wish list, the i-th
item is built from the i-th wish (order preserved), and each item has unit
amount sizePrice + photoPrice, quantity the wish amount, product name the
wish material and description "Print on {material}". -/
theorem create_line_items_spec (st : ServiceState) (env : Env) (uid : Nat)
    (ws : List Wish) (h : findById st.users uid = some ws) (hne : ws ≠ []) :
    (create st env uid).2.2.gatewayRequests =
      [{ line_items := buildItems ws, mode := "payment"
         success_url := redirectUrl, cancel_url := redirectUrl }] ∧
    (buildItems ws).length = ws.length ∧
    (∀ (i : Nat) (w : Wish), ws[i]? = some w → (buildItems ws)[i]? = some (mkItem w)) ∧
    (∀ w : Wish,
      (mkItem w).price_data.unit_amount = w.sizePrice + w.photoPrice ∧
      (mkItem w).quantity = w.amount ∧
      (mkItem w).price_data.product_data.name = w.material ∧
      (mkItem w).price_data.product_data.description = "Print on " ++ w.material) := by
  have hlen : ¬ ws.length = 0 := by simpa using hne
  refine ⟨?_, by simp [buildItems], ?_, fun w => ⟨rfl, rfl, rfl, rfl⟩⟩
  · cases hg : env.gatewayOutcome with
    | succeed amt url =>
        cases hp : env.persistOutcome <;> simp [create, h, hlen, hg, hp]
    | fail e => simp [create, h, hlen, hg]
  · intro i w hw
    simp [buildItems, hw]

/-- Witness for C2: the sample state's user 2 with the Canvas wish. -/
theorem create_line_items_spec_witness :
    (create sampleState okEnv 2).2.2.gatewayRequests =
      [{ line_items := buildItems [canvasWish], mode := "payment"
         success_url := redirectUrl, cancel_url := redirectUrl }] ∧
    (mkItem canvasWish).price_data.unit_amount = 1500 ∧
    (mkItem canvasWish).quantity = 2 :=
  ⟨(create_line_items_spec sampleState okEnv 2 [canvasWish] rfl (by simp)).1,
   ((create_line_items_spec sampleState okEnv 2 [canvasWish] rfl (by simp)).2.2.2 canvasWish).1,
   ((create_line_items_spec sampleState okEnv 2 [canvasWish] rfl (by simp)).2.2.2 canvasWish).2.1⟩

/-- C3: every successfully persisted order's `wishes` field is exactly the
id list of the fetched wishes, in order: the map of `Wish.id` over the
fetched list, with matching length and pointwise agreement. -/
theorem create_persists_wish_ids (st : ServiceState) (env : Env) (uid : Nat)
    (ws : List Wish) (order : OrderRecord)
    (h : findById st.users uid = some ws)
    (hok : (create st env uid).1 = .ok order) :
    order.wishes = ws.map Wish.id ∧
    order.wishes.length = ws.length ∧
    (∀ i : Nat, order.wishes[i]? = (ws[i]?).map Wish.id) := by
  by_cases hlen : ws.length = 0
  · simp [create, h, hlen] at hok
  · cases hg : env.gatewayOutcome with
    | fail e => simp [create, h, hlen, hg] at hok
    | succeed amt url =>
        cases hp : env.persistOutcome with
        | some e => simp [create, h, hlen, hg, hp] at hok
        | none =>
            simp [create, h, hlen, hg, hp] at hok
            refine ⟨?_, ?_, ?_⟩ <;> simp [← hok]

/-- Witness for C3: the concrete persisted order of the sample run. -/
theorem create_persists_wish_ids_witness :
    sampleOrder.wishes = [canvasWish].map Wish.id :=
  (create_persists_wish_ids sampleState okEnv 2 [canvasWish] sampleOrder rfl rfl).1

/-- C4: every successfully persisted order copies the gateway session's
amount total into `paid` and its url into `paymentLink`, starts with
status "Pending", and records the calling user's id. -/
theorem create_persists_payment_metadata (st : ServiceState) (env : Env) (uid : Nat)
    (ws : List Wish) (amt : Nat) (url : String) (order : OrderRecord)
    (h : findById st.users uid = some ws)
    (hg : env.gatewayOutcome = .succeed amt url)
    (hok : (create st env uid).1 = .ok order) :
    order.paid = amt ∧ order.paymentLink = url ∧
    order.status = "Pending" ∧ order.user = uid := by
  by_cases hlen : ws.length = 0
  · simp [create, h, hlen] at hok
  · cases hp : env.persistOutcome with
    | some e => simp [create, h, hlen, hg, hp] at hok
    | none =>
        simp [create, h, hlen, hg, hp] at hok
        refine ⟨?_, ?_, ?_, ?_⟩ <;> simp [← hok]

/-- Witness for C4: the sample run's order carries the session data. -/
theorem create_persists_payment_metadata_witness :
    sampleOrder.paid = 3000 ∧ sampleOrder.paymentLink = "https://pay/session/abc" ∧
    sampleOrder.status = "Pending" ∧ sampleOrder.user = 2 :=
  create_persists_payment_metadata sampleState okEnv 2 [canvasWish] 3000
    "https://pay/session/abc" sampleOrder rfl rfl rfl

/-- C5: the error-translation policy applied to every error raised in the
gateway-call/persistence phase of `create`: a raw error with code 11000
becomes BadRequest carrying the conflicting key/value; every other raw
error (gateway failures included) becomes the generic
InternalServerError whose caller-visible message is a constant independent
of the raw error; and both a gateway failure and a persistence failure
inside `create` surface exactly as `handelDBException` of the raw error. -/
theorem error_translation_policy (e : RawError) :
    (e.code = some 11000 →
      handelDBException e =
        .badRequestException ("Order already exists, " ++ e.keyValue)) ∧
    (¬ e.code = some 11000 →
      handelDBException e =
        .internalServerErrorException "Unexpected error, check server logs") ∧
    (∀ st uid ws, findById st.users uid = some ws → ws ≠ [] →
      ((create st ⟨.fail e, none⟩ uid).1 = .error (handelDBException e) ∧
       ∀ amt url,
         (create st ⟨.succeed amt url, some e⟩ uid).1 = .error (handelDBException e))) := by
  refine ⟨fun hc => by simp [handelDBException, hc], fun hc => by simp [handelDBException, hc], ?_⟩
  intro st uid ws h hne
  have hlen : ¬ ws.length = 0 := by simpa using hne
  exact ⟨by simp [create, h, hlen], fun amt url => by simp [create, h, hlen]⟩

/-- Witness for C5: duplicate-key and codeless errors at the sample state. -/
theorem error_translation_policy_witness :
    handelDBException dupErr = .badRequestException ("Order already exists, " ++ "user:2") ∧
    handelDBException netErr =
      .internalServerErrorException "Unexpected error, check server logs" ∧
    (create sampleState ⟨.fail netErr, none⟩ 2).1 = .error (handelDBException netErr) ∧
    (create sampleState ⟨.succeed 3000 "https://pay/session/abc", some dupErr⟩ 2).1 =
      .error (handelDBException dupErr) :=
  ⟨(error_translation_policy dupErr).1 rfl,
   (error_translation_policy netErr).2.1 (by simp [netErr]),
   ((error_translation_policy netErr).2.2 sampleState 2 [canvasWish] rfl (by simp)).1,
   ((error_translation_policy dupErr).2.2 sampleState 2 [canvasWish] rfl (by simp)).2 3000
     "https://pay/session/abc"⟩

/-- C6: order creation is not idempotent.  Two sequential successful
`create` calls over the same (unchanged) non-empty wish list both succeed
and produce two distinct persisted orders and two distinct gateway
sessions. -/
theorem create_not_idempotent (st : ServiceState) (uid : Nat) (ws : List Wish)
    (a1 a2 : Nat) (u1 u2 : String)
    (h : findById st.users uid = some ws) (hne : ws ≠ []) :
    ∃ o1 o2 s1 s2,
      (create st ⟨.succeed a1 u1, none⟩ uid).1 = .ok o1 ∧
      (create (create st ⟨.succeed a1 u1, none⟩ uid).2.1 ⟨.succeed a2 u2, none⟩ uid).1 = .ok o2 ∧
      o1.oid ≠ o2.oid ∧
      (create st ⟨.succeed a1 u1, none⟩ uid).2.2.sessionsCreated = [s1] ∧
      (create (create st ⟨.succeed a1 u1, none⟩ uid).2.1
        ⟨.succeed a2 u2, none⟩ uid).2.2.sessionsCreated = [s2] ∧
      s1.sid ≠ s2.sid := by
  have hlen : ¬ ws.length = 0 := by simpa using hne
  refine ⟨{ oid := st.nextOrderId, createdAt := st.now, paid := a1, status := "Pending"
            paymentLink := u1, user := uid, wishes := ws.map Wish.id },
          { oid := st.nextOrderId + 1, createdAt := st.now, paid := a2, status := "Pending"
            paymentLink := u2, user := uid, wishes := ws.map Wish.id },
          { sid := st.nextSessionId, amount_total := a1, url := u1 },
          { sid := st.nextSessionId + 1, amount_total := a2, url := u2 },
          ?_, ?_, ?_, ?_, ?_, ?_⟩ <;>
    simp [create, h, hlen]

/-- Witness for C6: two runs starting from the sample state. -/
theorem create_not_idempotent_witness :
    ∃ o1 o2 s1 s2,
      (create sampleState ⟨.succeed 3000 "https://pay/session/abc", none⟩ 2).1 = .ok o1 ∧
      (create (create sampleState ⟨.succeed 3000 "https://pay/session/abc", none⟩ 2).2.1
        ⟨.succeed 3000 "https://pay/session/abc", none⟩ 2).1 = .ok o2 ∧
      o1.oid ≠ o2.oid ∧
      (create sampleState
        ⟨.succeed 3000 "https://pay/session/abc", none⟩ 2).2.2.sessionsCreated = [s1] ∧
      (create (create sampleState ⟨.succeed 3000 "https://pay/session/abc", none⟩ 2).2.1
        ⟨.succeed 3000 "https://pay/session/abc", none⟩ 2).2.2.sessionsCreated = [s2] ∧
      s1.sid ≠ s2.sid :=
  create_not_idempotent sampleState 2 [canvasWish] 3000 3000
    "https://pay/session/abc" "https://pay/session/abc" rfl (by simp)

/-- C7: `update id patch` on an existing order returns the patched order
and stores it, accepting any status value in the patch without
validation; on a missing id it fails with NotFound and leaves the state
unchanged. -/
theorem update_contract (st : ServiceState) (id : Nat) (p : UpdateOrderDto) :
    (∀ o, findOrder st.orders id = some o →
      (update st id p).1 = .ok (applyPatch o p) ∧
      (update st id p).2.orders =
        st.orders.map (fun x => if x.oid == id then applyPatch x p else x) ∧
      (∀ s, p.status = some s → (applyPatch o p).status = s)) ∧
    (findOrder st.orders id = none →
      (update st id p).1 = .error (.notFoundException (orderNotFoundMsg id)) ∧
      (update st id p).2 = st) := by
  constructor
  · intro o ho
    refine ⟨by simp [update, ho], by simp [update, ho], ?_⟩
    intro s hs
    simp [applyPatch, hs]
  · intro ho
    exact ⟨by simp [update, ho], by simp [update, ho]⟩

/-- State holding the sample order, for exercising the CRUD operations. -/
def stateWithOrder : ServiceState :=
  { sampleState with orders := [sampleOrder] }

/-- A patch setting only the status, to an arbitrary unvalidated value. -/
def regressPatch : UpdateOrderDto := { status := some "Delivered" }

/-- Witness for C7: updating the stored sample order and a missing id. -/
theorem update_contract_witness :
    (update stateWithOrder 100 regressPatch).1 = .ok (applyPatch sampleOrder regressPatch) ∧
    (applyPatch sampleOrder regressPatch).status = "Delivered" ∧
    (update stateWithOrder 999 regressPatch).1 =
      .error (.notFoundException (orderNotFoundMsg 999)) :=
  ⟨((update_contract stateWithOrder 100 regressPatch).1 sampleOrder rfl).1,
   ((update_contract stateWithOrder 100 regressPatch).1 sampleOrder rfl).2.2 "Delivered" rfl,
   ((update_contract stateWithOrder 999 regressPatch).2 rfl).1⟩

/-- C8: `remove id` on an existing order returns the confirmation message
and deletes the order (no order with that id remains); on a missing id it
fails with NotFound and leaves the state unchanged. -/
theorem remove_contract (st : ServiceState) (id : Nat) :
    (∀ o, findOrder st.orders id = some o →
      (remove st id).1 = .ok (orderRemovedMsg id) ∧
      (∀ x, x ∈ (remove st id).2.orders → x.oid ≠ id)) ∧
    (findOrder st.orders id = none →
      (remove st id).1 = .error (.notFoundException (orderNotFoundMsg id)) ∧
      (remove st id).2 = st) := by
  constructor
  · intro o ho
    refine ⟨by simp [remove, ho], ?_⟩
    intro x hx
    simp [remove, ho, List.mem_filter] at hx
    exact hx.2
  · intro ho
    exact ⟨by simp [remove, ho], by simp [remove, ho]⟩

/-- Witness for C8: removing the stored sample order and a missing id. -/
theorem remove_contract_witness :
    (remove stateWithOrder 100).1 = .ok (orderRemovedMsg 100) ∧
    (remove stateWithOrder 999).1 = .error (.notFoundException (orderNotFoundMsg 999)) :=
  ⟨((remove_contract stateWithOrder 100).1 sampleOrder rfl).1,
   ((remove_contract stateWithOrder 999).2 rfl).1⟩

/-- C9: when the user document is absent from the user store, `create`
fails with the unhandled runtime TypeError of destructuring null — never
with a NotFound, and never with an output of the error-translation path
(`handelDBException` only produces BadRequest or InternalServerError). -/
theorem create_missing_user_runtime_error (st : ServiceState) (env : Env) (uid : Nat)
    (h : findById st.users uid = none) :
    (create st env uid).1 = .error (.typeError "Cannot destructure property wishes of null") ∧
    (∀ m, (create st env uid).1 ≠ .error (.notFoundException m)) ∧
    (∀ e : RawError, (create st env uid).1 ≠ .error (handelDBException e)) := by
  refine ⟨by simp [create, h], ?_, ?_⟩
  · intro m hc
    simp [create, h] at hc
  · intro e hc
    by_cases hcode : e.code = some 11000 <;>
      simp [create, h, handelDBException, hcode] at hc

/-- Witness for C9: no user 3 exists in the sample state. -/
theorem create_missing_user_runtime_error_witness :
    (create sampleState okEnv 3).1 =
      .error (.typeError "Cannot destructure property wishes of null") ∧
    (create sampleState okEnv 3).1 ≠ .error (.notFoundException "No wishes found") ∧
    (create sampleState okEnv 3).1 ≠ .error (handelDBException dupErr) :=
  ⟨(create_missing_user_runtime_error sampleState okEnv 3 rfl).1,
   (create_missing_user_runtime_error sampleState okEnv 3 rfl).2.1 "No wishes found",
   (create_missing_user_runtime_error sampleState okEnv 3 rfl).2.2 dupErr⟩

/-- C10: every line item is built with currency "usd": the constructor
fixes it for every wish, and every request `create` submits to the gateway
contains only items whose currency is "usd", for every state, environment
and user. -/
theorem line_items_currency_always_usd (st : ServiceState) (env : Env) (uid : Nat) :
    (∀ w : Wish, (mkItem w).price_data.currency = "usd") ∧
    (∀ req, req ∈ (create st env uid).2.2.gatewayRequests →
      ∀ item, item ∈ req.line_items → item.price_data.currency = "usd") := by
  refine ⟨fun w => rfl, ?_⟩
  intro req hreq item hitem
  rcases hf : findById st.users uid with _ | ws
  · simp [create, hf, Trace.empty] at hreq
  · by_cases hlen : ws.length = 0
    · simp [create, hf, hlen, Trace.empty] at hreq
    · have hreq2 : req.line_items = buildItems ws := by
        cases hg : env.gatewayOutcome with
        | fail e =>
            simp [create, hf, hlen, hg] at hreq
            simp [hreq]
        | succeed amt url =>
            cases hp : env.persistOutcome <;>
              (simp [create, hf, hlen, hg, hp] at hreq; simp [hreq])
      rw [hreq2] at hitem
      simp [buildItems] at hitem
      obtain ⟨w, -, rfl⟩ := hitem
      rfl

/-- Witness for C10: the single request of the sample run holds only
"usd" items. -/
theorem line_items_currency_always_usd_witness :
    (mkItem canvasWish).price_data.currency = "usd" :=
  (line_items_currency_always_usd sampleState okEnv 2).2
    { line_items := buildItems [canvasWish], mode := "payment"
      success_url := redirectUrl, cancel_url := redirectUrl }
    (by simp [create, sampleState, okEnv, findById, canvasWish])
    (mkItem canvasWish) (by simp [buildItems])
